import Mathlib

/-!
Shallow embedding of the bootz bootstrap Service
(`server/service/service.go` of the bootz repository).

The Go `Service` struct owns three ledger maps (`connectedChassis`,
`activeBoots`, `failedRequest`) guarded by one mutex; every RPC handler
holds the lock for its whole duration, so each handler is modelled as a
pure function from the ledger state (plus the request and a `now`
timestamp standing for `time.Now().UnixMilli()`) to a new ledger state
and a result.  The polymorphic `EntityManager` interface is modelled as
a record of functions, and each run additionally returns the list of
entity-manager calls it performed, so that claims of the form "X is
(never) invoked" are directly statable.

Go maps are modelled as association lists with in-place update
(`abInsert`, `abUpdate`, `abLookup`); Go errors are `Option`/`Except`
values.  A Go nil-pointer dereference (possible in `ReportStatus`) is
modelled by the `ReportOutcome.nilDeref` outcome.
-/

namespace Bootz

/-- Boot modes from the bootz proto (`bpb.BootMode`). -/
inductive BootMode where
  | unspecified
  | insecure
  | secure
  deriving DecidableEq, Repr

/-- Control-card statuses from the bootz proto (`bpb.ControlCardState_ControlCardStatus`). -/
inductive ControlCardStatus where
  | unspecified
  | failed
  | initialized
  deriving DecidableEq, Repr

/-- gRPC status codes used by `service.go` (`google.golang.org/grpc/codes`). -/
inductive Code where
  | invalidArgument
  | notFound
  | internal
  | unknown
  deriving DecidableEq, Repr

/-- A Go `error` value as produced by the entity manager: a code plus a message. -/
structure Err where
  code : Code
  msg : String
  deriving DecidableEq, Repr

/-- An error returned by a `Service` RPC: either a `status.Errorf` error, the
aggregate error of an `errlist.List`, or a plain `fmt.Errorf` error. -/
inductive RpcErr where
  | status (code : Code) (msg : String)
  | errList (errs : List Err)
  | plain (msg : String)
  deriving DecidableEq, Repr

/-- Model of `bpb.ControlCard`: a control card descriptor in a request. -/
structure ControlCard where
  serialNumber : String
  partNumber : String
  deriving DecidableEq, Repr

/-- Model of `bpb.ChassisDescriptor`. -/
structure ChassisDescriptor where
  manufacturer : String
  serialNumber : String
  controlCards : List ControlCard
  deriving DecidableEq, Repr

/-- Model of `bpb.ControlCardState`: a per-card status report entry. -/
structure ControlCardState where
  serialNumber : String
  status : ControlCardStatus
  deriving DecidableEq, Repr

/-- Model of `bpb.GetBootstrapDataRequest`. -/
structure GetBootstrapDataRequest where
  chassisDescriptor : ChassisDescriptor
  controlCardState : Option ControlCardState
  nonce : String
  deriving DecidableEq, Repr

/-- Model of `bpb.BootstrapDataResponse`: the per-card payload assembled by the entity
manager.  The orchestrator treats it opaquely; only the serial is modelled. -/
structure BootstrapDataResponse where
  serialNum : String
  deriving DecidableEq, Repr

/-- Model of `bpb.BootstrapDataSigned`: the signed-payload section of the envelope. -/
structure BootstrapDataSigned where
  responses : List (Option BootstrapDataResponse)
  nonce : String
  deriving DecidableEq, Repr

/-- Model of `bpb.GetBootstrapDataResponse`: the response envelope. -/
structure GetBootstrapDataResponse where
  signedResponse : Option BootstrapDataSigned
  responseSignature : String
  ownershipCertificate : String
  ownershipVoucher : String
  deriving DecidableEq, Repr

/-- Model of `bpb.ReportStatusRequest`; the orchestrator only reads `GetStates()`. -/
structure ReportStatusRequest where
  states : List ControlCardState
  deriving DecidableEq, Repr

/-- Model of `bpb.EmptyResponse`. -/
inductive EmptyResponse where
  | mk
  deriving DecidableEq, Repr

/-- Model of `service.EntityLookup`. -/
structure EntityLookup where
  manufacturer : String
  serialNumber : String
  deriving DecidableEq, Repr

/-- Model of `service.ChassisEntity`. -/
structure ChassisEntity where
  bootMode : BootMode
  deriving DecidableEq, Repr

/-- Model of `service.bootLog`: the per-control-card lifecycle record. -/
structure bootLog where
  bootMode : BootMode
  startTimeStamp : Nat
  endTimeStamp : Nat
  status : List ControlCardStatus
  lastStatus : ControlCardStatus
  bootResponse : Option BootstrapDataResponse
  bootRequest : Option GetBootstrapDataRequest
  err : Option Err
  deriving DecidableEq, Repr

/-- The zero value of `bootLog`, returned by `GetBootStatus` on a miss. -/
def bootLog.zero : bootLog :=
  { bootMode := BootMode.unspecified
    startTimeStamp := 0
    endTimeStamp := 0
    status := []
    lastStatus := ControlCardStatus.unspecified
    bootResponse := none
    bootRequest := none
    err := none }

/-- Lookup in a Go map modelled as an association list. -/
def abLookup (m : List (String × bootLog)) (k : String) : Option bootLog :=
  match m with
  | [] => none
  | (k', v) :: rest => if k' = k then some v else abLookup rest k

/-- Go map assignment `m[k] = v`: replace in place, else append. -/
def abInsert (m : List (String × bootLog)) (k : String) (v : bootLog) :
    List (String × bootLog) :=
  match m with
  | [] => [(k, v)]
  | (k', v') :: rest =>
      if k' = k then (k, v) :: rest else (k', v') :: abInsert rest k v

/-- Go field assignment through a map entry, `m[k].f = x`; the call sites all
have the key present (it was just inserted), so a missing key is a no-op here. -/
def abUpdate (m : List (String × bootLog)) (k : String) (f : bootLog → bootLog) :
    List (String × bootLog) :=
  match m with
  | [] => []
  | (k', v) :: rest =>
      if k' = k then (k', f v) :: rest else (k', v) :: abUpdate rest k f

/-- Membership in the `connectedChassis` set (a Go `map[EntityLookup]bool`). -/
def lookupMember (cs : List EntityLookup) (l : EntityLookup) : Bool :=
  match cs with
  | [] => false
  | c :: rest => if c = l then true else lookupMember rest l

/-- Go set insertion `m[l] = true`. -/
def lookupInsert (cs : List EntityLookup) (l : EntityLookup) : List EntityLookup :=
  if lookupMember cs l then cs else cs ++ [l]

/-- The ledger state of `service.Service` (the three maps guarded by `mu`).
`failedRequest` is keyed by request pointer in Go, so each failing call adds a
fresh entry; it is modelled as an append-only list of entries. -/
structure ServiceState where
  connectedChassis : List EntityLookup
  activeBoots : List (String × bootLog)
  failedRequest : List (GetBootstrapDataRequest × RpcErr)
  deriving DecidableEq, Repr

/-- The `service.EntityManager` interface, as a record of functions. -/
structure EntityManager where
  resolveChassis : EntityLookup → String → Except Err ChassisEntity
  getBootstrapData : EntityLookup → Option ControlCard → Except Err BootstrapDataResponse
  setStatus : ReportStatusRequest → Option Err
  sign : GetBootstrapDataResponse → EntityLookup → String → Except Err GetBootstrapDataResponse

/-- One entity-manager call performed during a run. -/
inductive EMCall where
  | resolveChassis (lookup : EntityLookup) (ccSerial : String)
  | getBootstrapData (lookup : EntityLookup) (card : Option ControlCard)
  | setStatus (req : ReportStatusRequest)
  | sign (resp : GetBootstrapDataResponse) (lookup : EntityLookup) (serial : String)
  deriving DecidableEq, Repr

/-- Whether a call is a chassis-level (nil control card) bootstrap-data fetch. -/
def isChassisLevelFetch : EMCall → Bool
  | EMCall.getBootstrapData _ none => true
  | _ => false

/-- Whether a call is a `Sign` invocation. -/
def isSignCall : EMCall → Bool
  | EMCall.sign _ _ _ => true
  | _ => false

/-- The outcome of a `GetBootstrapData` RPC: new ledger state, result, and the
entity-manager calls performed. -/
instance {ε α : Type} [DecidableEq ε] [DecidableEq α] : DecidableEq (Except ε α) := fun a b =>
  match a, b with
  | Except.error e, Except.error f =>
      if h : e = f then Decidable.isTrue (by rw [h])
      else Decidable.isFalse (fun hc => h (Except.error.inj hc))
  | Except.ok x, Except.ok y =>
      if h : x = y then Decidable.isTrue (by rw [h])
      else Decidable.isFalse (fun hc => h (Except.ok.inj hc))
  | Except.error _, Except.ok _ => Decidable.isFalse (fun hc => Except.noConfusion hc)
  | Except.ok _, Except.error _ => Decidable.isFalse (fun hc => Except.noConfusion hc)

structure GBDResult where
  state : ServiceState
  result : Except RpcErr GetBootstrapDataResponse
  trace : List EMCall
  deriving DecidableEq, Repr

/-- The Go statement building the lookup from the request descriptor (service.go:119). -/
def lookupOf (req : GetBootstrapDataRequest) : EntityLookup :=
  { manufacturer := req.chassisDescriptor.manufacturer
    serialNumber := req.chassisDescriptor.serialNumber }

/-- The Go statement `ccSerial = req.ChassisDescriptor.GetControlCards()[0].GetSerialNumber()`
(service.go:116; the list is non-empty at that point). -/
def ccSerialOf (req : GetBootstrapDataRequest) : String :=
  match req.chassisDescriptor.controlCards with
  | [] => ""
  | c :: _ => c.serialNumber

/-- The Go expression `req.GetControlCardState().GetSerialNumber()` (service.go:188), with
proto getters returning the zero value on nil. -/
def ccStateSerial (req : GetBootstrapDataRequest) : String :=
  match req.controlCardState with
  | none => ""
  | some c => c.serialNumber

/-- Accumulator of the per-control-card loop (service.go:144-159): ledger
state, `errs errlist.List`, `responses`, and the calls made so far. -/
structure LoopAcc where
  state : ServiceState
  errs : List Err
  responses : List (Option BootstrapDataResponse)
  calls : List EMCall
  deriving Repr

/-- One iteration of the per-control-card loop of `GetBootstrapData`
(service.go:144-159): create/overwrite the card's boot log, fetch its data,
record the error (if any) and the response, and accumulate. -/
def cardLoopStep (em : EntityManager) (now : Nat) (chassis : ChassisEntity)
    (lookup : EntityLookup) (req : GetBootstrapDataRequest)
    (acc : LoopAcc) (v : ControlCard) : LoopAcc :=
  let fresh : bootLog :=
    { bootMode := chassis.bootMode
      startTimeStamp := now
      endTimeStamp := 0
      status := []
      lastStatus := ControlCardStatus.unspecified
      bootResponse := none
      bootRequest := some req
      err := none }
  let st1 : ServiceState :=
    { acc.state with activeBoots := abInsert acc.state.activeBoots v.serialNumber fresh }
  match em.getBootstrapData lookup (some v) with
  | Except.error e =>
      let st2 : ServiceState :=
        { st1 with activeBoots := abUpdate st1.activeBoots v.serialNumber (fun b => { b with err := some e }) }
      let st3 : ServiceState :=
        { st2 with activeBoots := abUpdate st2.activeBoots v.serialNumber (fun b => { b with bootResponse := none }) }
      { state := st3
        errs := acc.errs ++ [e]
        responses := acc.responses ++ [none]
        calls := acc.calls ++ [EMCall.getBootstrapData lookup (some v)] }
  | Except.ok bootdata =>
      let st3 : ServiceState :=
        { st1 with activeBoots := abUpdate st1.activeBoots v.serialNumber (fun b => { b with bootResponse := some bootdata }) }
      { state := st3
        errs := acc.errs
        responses := acc.responses ++ [some bootdata]
        calls := acc.calls ++ [EMCall.getBootstrapData lookup (some v)] }

/-- The tail of `GetBootstrapData` after the per-card loop (service.go:160-194):
optional fixed-chassis fetch, aggregate-error check, envelope assembly and
optional signing. -/
def gbdFinish (em : EntityManager) (req : GetBootstrapDataRequest)
    (lookup : EntityLookup) (ccSerial : String) (fixedChasis : Bool)
    (acc1 : LoopAcc) : GBDResult :=
  let acc2 : LoopAcc :=
    if fixedChasis then
      match em.getBootstrapData lookup none with
      | Except.error e =>
          { acc1 with
            errs := acc1.errs ++ [e]
            responses := acc1.responses ++ [none]
            calls := acc1.calls ++ [EMCall.getBootstrapData lookup none] }
      | Except.ok bootdata =>
          { acc1 with
            responses := acc1.responses ++ [some bootdata]
            calls := acc1.calls ++ [EMCall.getBootstrapData lookup none] }
    else acc1
  if acc2.errs ≠ [] then
    { state := acc2.state
      result := Except.error (RpcErr.errList acc2.errs)
      trace := EMCall.resolveChassis lookup ccSerial :: acc2.calls }
  else
    let sr : BootstrapDataSigned := { responses := acc2.responses, nonce := "" }
    let resp : GetBootstrapDataResponse :=
      { signedResponse := some sr
        responseSignature := ""
        ownershipCertificate := ""
        ownershipVoucher := "" }
    if req.nonce ≠ "" then
      let resp2 : GetBootstrapDataResponse :=
        { resp with signedResponse := some { sr with nonce := req.nonce } }
      match em.sign resp2 lookup (ccStateSerial req) with
      | Except.error _ =>
          { state := acc2.state
            result := Except.error (RpcErr.status Code.internal "failed to sign bootz response")
            trace := EMCall.resolveChassis lookup ccSerial ::
              (acc2.calls ++ [EMCall.sign resp2 lookup (ccStateSerial req)]) }
      | Except.ok signed =>
          { state := acc2.state
            result := Except.ok signed
            trace := EMCall.resolveChassis lookup ccSerial ::
              (acc2.calls ++ [EMCall.sign resp2 lookup (ccStateSerial req)]) }
    else
      { state := acc2.state
        result := Except.ok resp
        trace := EMCall.resolveChassis lookup ccSerial :: acc2.calls }

/-- Model of `Service.GetBootstrapData` (service.go:102-195).  The error message of the
failed-resolution path abstracts Go's formatted `%+v`/`%v` interpolation. -/
def Service.getBootstrapData (em : EntityManager) (now : Nat) (s : ServiceState)
    (req : GetBootstrapDataRequest) : GBDResult :=
  if req.chassisDescriptor.controlCards.length = 0 then
    let e := RpcErr.status Code.invalidArgument "request must include at least one control card"
    { state := { s with failedRequest := s.failedRequest ++ [(req, e)] }
      result := Except.error e
      trace := [] }
  else
    let fixedChasis : Bool :=
      if 1 ≤ req.chassisDescriptor.controlCards.length then false else true
    let ccSerial : String := ccSerialOf req
    let lookup : EntityLookup := lookupOf req
    match em.resolveChassis lookup ccSerial with
    | Except.error _ =>
        let e := RpcErr.status Code.invalidArgument "failed to resolve chassis to inventory"
        { state := { s with failedRequest := s.failedRequest ++ [(req, e)] }
          result := Except.error e
          trace := [EMCall.resolveChassis lookup ccSerial] }
    | Except.ok chassis =>
        let s1 : ServiceState :=
          { s with connectedChassis := lookupInsert s.connectedChassis lookup }
        if chassis.bootMode = BootMode.secure ∧ req.nonce = "" then
          { state := s1
            result := Except.error
              (RpcErr.status Code.invalidArgument "chassis requires secure boot only")
            trace := [EMCall.resolveChassis lookup ccSerial] }
        else
          let acc0 : LoopAcc := { state := s1, errs := [], responses := [], calls := [] }
          let acc1 := req.chassisDescriptor.controlCards.foldl
            (cardLoopStep em now chassis lookup req) acc0
          gbdFinish em req lookup ccSerial fixedChasis acc1

/-- The three status-update statements of the `ReportStatus` loop body
(service.go:206-210) applied to one boot log. -/
def applyOne (now : Nat) (b : bootLog) (st : ControlCardState) : bootLog :=
  let b1 := { b with lastStatus := st.status }
  let b2 := { b1 with status := b1.status ++ [st.status] }
  if st.status = ControlCardStatus.initialized then { b2 with endTimeStamp := now } else b2

/-- The `ReportStatus` update loop (service.go:205-211).  Each iteration
dereferences `s.activeBoots[stat.GetSerialNumber()]`; a missing entry is a nil
map value and the dereference panics, modelled as `none`. -/
def applyStates (now : Nat) :
    List (String × bootLog) → List ControlCardState → Option (List (String × bootLog))
  | ab, [] => some ab
  | ab, st :: rest =>
      match abLookup ab st.serialNumber with
      | none => none
      | some b => applyStates now (abInsert ab st.serialNumber (applyOne now b st)) rest

/-- The outcome of a `ReportStatus` RPC: either a normal Go return
`(resp, err)` with the new ledger state, or a nil-map-entry dereference. -/
inductive ReportOutcome where
  | ok (state : ServiceState) (resp : Option EmptyResponse) (err : Option Err)
  | nilDeref
  deriving DecidableEq, Repr

/-- Model of `Service.ReportStatus` (service.go:197-216).  Note the inverted branches of
the source: an error from `SetStatus` commits the updates and returns success;
a nil error falls through to `return nil, err` with `err` still nil. -/
def Service.reportStatus (em : EntityManager) (now : Nat) (s : ServiceState)
    (req : ReportStatusRequest) : ReportOutcome :=
  match em.setStatus req with
  | some _ =>
      match applyStates now s.activeBoots req.states with
      | some ab =>
          ReportOutcome.ok { s with activeBoots := ab } (some EmptyResponse.mk) none
      | none => ReportOutcome.nilDeref
  | none => ReportOutcome.ok s none none

/-- Model of `Service.IsChassisConnected` (service.go:219-223). -/
def Service.isChassisConnected (s : ServiceState) (chassis : EntityLookup) : Bool :=
  lookupMember s.connectedChassis chassis

/-- Model of `Service.ResetStatus` (service.go:227-233): clears all three ledger maps. -/
def Service.resetStatus (_s : ServiceState) (_chassis : EntityLookup) : ServiceState :=
  { connectedChassis := [], activeBoots := [], failedRequest := [] }

/-- Model of `Service.GetBootStatus` (service.go:236-244). -/
def Service.getBootStatus (s : ServiceState) (serial : String) :
    bootLog × Option RpcErr :=
  match abLookup s.activeBoots serial with
  | none =>
      (bootLog.zero, some (RpcErr.plain ("no boot log found for controller card " ++ serial)))
  | some b => (b, none)

/-- Model of `service.New` (service.go:253-260): the initial empty ledger. -/
def Service.new : ServiceState :=
  { connectedChassis := [], activeBoots := [], failedRequest := [] }

/-! Concrete fixtures, mirroring the repository's test data (chassis
`{Cisco, 123}` with control cards `123A` and `123B`). -/

/-- Control card `123A` of the test inventory. -/
def cardA : ControlCard := { serialNumber := "123A", partNumber := "123A" }

/-- Control card `123B` of the test inventory. -/
def cardB : ControlCard := { serialNumber := "123B", partNumber := "123B" }

/-- The test chassis lookup `{Cisco, 123}`. -/
def lookupCisco : EntityLookup := { manufacturer := "Cisco", serialNumber := "123" }

/-- An in-memory entity manager over the test inventory: chassis `{Cisco, 123}`
in INSECURE mode, cards `123A`/`123B` resolvable, voucher only for `123A`,
status reports accepted (`SetStatus` returns nil). -/
def emDemo : EntityManager :=
  { resolveChassis := fun l _ =>
      if l = lookupCisco then Except.ok { bootMode := BootMode.insecure }
      else Except.error { code := Code.notFound, msg := "chassis not found" }
    getBootstrapData := fun _ c =>
      match c with
      | some v =>
          if v.serialNumber = "123A" ∨ v.serialNumber = "123B" then
            Except.ok { serialNum := v.serialNumber }
          else Except.error { code := Code.notFound, msg := "control card not found" }
      | none => Except.error { code := Code.notFound, msg := "chassis serial not found" }
    setStatus := fun _ => none
    sign := fun resp _ ser =>
      if ser = "123A" then Except.ok { resp with responseSignature := "sig" }
      else Except.error { code := Code.notFound, msg := "no voucher" } }

/-- Same inventory but every status report is rejected by the entity manager. -/
def emSetStatusErr : EntityManager :=
  { emDemo with setStatus := fun _ => some { code := Code.notFound, msg := "no active boot" } }

/-- Same inventory but the chassis is SECURE-only. -/
def emSecure : EntityManager :=
  { emDemo with resolveChassis := fun l _ =>
      if l = lookupCisco then Except.ok { bootMode := BootMode.secure }
      else Except.error { code := Code.notFound, msg := "chassis not found" } }

/-- Same inventory but fetching data for card `123A` fails. -/
def emFetchAErr : EntityManager :=
  { emDemo with getBootstrapData := fun _ c =>
      match c with
      | some v =>
          if v.serialNumber = "123A" then
            Except.error { code := Code.notFound, msg := "control card not found" }
          else Except.ok { serialNum := v.serialNumber }
      | none => Except.error { code := Code.notFound, msg := "chassis serial not found" } }

/-- Same inventory but fetching data for card `123B` fails. -/
def emFetchBErr : EntityManager :=
  { emDemo with getBootstrapData := fun _ c =>
      match c with
      | some v =>
          if v.serialNumber = "123B" then
            Except.error { code := Code.notFound, msg := "control card not found" }
          else Except.ok { serialNum := v.serialNumber }
      | none => Except.error { code := Code.notFound, msg := "chassis serial not found" } }

/-- An entity manager that resolves nothing. -/
def emNever : EntityManager :=
  { resolveChassis := fun _ _ => Except.error { code := Code.notFound, msg := "chassis not found" }
    getBootstrapData := fun _ _ => Except.error { code := Code.notFound, msg := "not found" }
    setStatus := fun _ => none
    sign := fun resp _ _ => Except.ok resp }

/-- A request for chassis `{Cisco, 123}` with cards `[123A, 123B]`, no nonce. -/
def reqAB : GetBootstrapDataRequest :=
  { chassisDescriptor :=
      { manufacturer := "Cisco", serialNumber := "123", controlCards := [cardA, cardB] }
    controlCardState := some { serialNumber := "123A", status := ControlCardStatus.unspecified }
    nonce := "" }

/-- The same request carrying nonce `N1`. -/
def reqABN1 : GetBootstrapDataRequest := { reqAB with nonce := "N1" }

/-- A request with an empty control-card list. -/
def reqEmpty : GetBootstrapDataRequest :=
  { chassisDescriptor := { manufacturer := "Cisco", serialNumber := "123", controlCards := [] }
    controlCardState := none
    nonce := "" }

/-- A request with an empty control-card list but carrying nonce `N1`. -/
def reqEmptyN1 : GetBootstrapDataRequest := { reqEmpty with nonce := "N1" }

/-- A status report for card `123A` with status INITIALIZED. -/
def rsReqA : ReportStatusRequest :=
  { states := [{ serialNumber := "123A", status := ControlCardStatus.initialized }] }

/-- A status report for an unknown serial. -/
def rsReqMissing : ReportStatusRequest :=
  { states := [{ serialNumber := "999", status := ControlCardStatus.initialized }] }

/-- A ledger state holding a boot log for serial `123A` only. -/
def sBootA : ServiceState :=
  { connectedChassis := [lookupCisco]
    activeBoots := [("123A", bootLog.zero)]
    failedRequest := [] }

/-- The response `emDemo` produces for `reqABN1` (nonce `N1`, signed). -/
def respABN1 : GetBootstrapDataResponse :=
  { signedResponse := some
      { responses := [some { serialNum := "123A" }, some { serialNum := "123B" }]
        nonce := "N1" }
    responseSignature := "sig"
    ownershipCertificate := ""
    ownershipVoucher := "" }

/-- The response `emDemo` produces for `reqAB` (no nonce, so unsigned). -/
def respAB : GetBootstrapDataResponse :=
  { signedResponse := some
      { responses := [some { serialNum := "123A" }, some { serialNum := "123B" }]
        nonce := "" }
    responseSignature := ""
    ownershipCertificate := ""
    ownershipVoucher := "" }

/-! Association-list and set lemmas. -/

theorem abLookup_abInsert (m : List (String × bootLog)) (k : String) (v : bootLog)
    (k' : String) :
    abLookup (abInsert m k v) k' = if k' = k then some v else abLookup m k' := by
  induction m with
  | nil =>
      simp only [abInsert, abLookup]
      by_cases h : k' = k
      · simp [h]
      · simp [h, Ne.symm h]
  | cons p rest ih =>
      obtain ⟨k0, v0⟩ := p
      simp only [abInsert]
      by_cases h0 : k0 = k
      · subst h0
        simp only [if_pos rfl, abLookup]
        by_cases h : k' = k0
        · simp [h]
        · simp [h, Ne.symm h]
      · simp only [if_neg h0, abLookup]
        by_cases h1 : k0 = k'
        · subst h1
          simp [h0]
        · simp [h1, ih]

theorem abLookup_abUpdate (m : List (String × bootLog)) (k : String)
    (f : bootLog → bootLog) (k' : String) :
    abLookup (abUpdate m k f) k' =
      if k' = k then Option.map f (abLookup m k') else abLookup m k' := by
  induction m with
  | nil =>
      simp only [abUpdate, abLookup]
      by_cases h : k' = k <;> simp [h]
  | cons p rest ih =>
      obtain ⟨k0, v0⟩ := p
      simp only [abUpdate]
      by_cases h0 : k0 = k
      · subst h0
        simp only [if_pos rfl, abLookup]
        by_cases h : k0 = k'
        · subst h; simp
        · simp only [if_neg h, ih]
          by_cases h1 : k' = k0
          · exact absurd h1.symm h
          · simp [h1]
      · simp only [if_neg h0, abLookup]
        by_cases h1 : k0 = k'
        · subst h1
          simp [h0]
        · simp [h1, ih]

theorem lookupMember_append_self (cs : List EntityLookup) (l : EntityLookup) :
    lookupMember (cs ++ [l]) l = true := by
  induction cs with
  | nil => simp [lookupMember]
  | cons c rest ih =>
      simp only [List.cons_append, lookupMember]
      by_cases h : c = l <;> simp [h, ih]

theorem lookupMember_lookupInsert_self (cs : List EntityLookup) (l : EntityLookup) :
    lookupMember (lookupInsert cs l) l = true := by
  unfold lookupInsert
  by_cases h : lookupMember cs l = true
  · simp [h]
  · simp [h, lookupMember_append_self]

/-! Run-shape lemmas about `GetBootstrapData`. -/

theorem cardLoopStep_state_connected (em : EntityManager) (now : Nat)
    (chassis : ChassisEntity) (lookup : EntityLookup) (req : GetBootstrapDataRequest)
    (acc : LoopAcc) (v : ControlCard) :
    (cardLoopStep em now chassis lookup req acc v).state.connectedChassis =
      acc.state.connectedChassis := by
  cases hx : em.getBootstrapData lookup (some v) <;> simp [cardLoopStep, hx]

theorem cardLoopStep_state_failed (em : EntityManager) (now : Nat)
    (chassis : ChassisEntity) (lookup : EntityLookup) (req : GetBootstrapDataRequest)
    (acc : LoopAcc) (v : ControlCard) :
    (cardLoopStep em now chassis lookup req acc v).state.failedRequest =
      acc.state.failedRequest := by
  cases hx : em.getBootstrapData lookup (some v) <;> simp [cardLoopStep, hx]

theorem cardLoopStep_calls (em : EntityManager) (now : Nat)
    (chassis : ChassisEntity) (lookup : EntityLookup) (req : GetBootstrapDataRequest)
    (acc : LoopAcc) (v : ControlCard) :
    (cardLoopStep em now chassis lookup req acc v).calls =
      acc.calls ++ [EMCall.getBootstrapData lookup (some v)] := by
  cases hx : em.getBootstrapData lookup (some v) <;> simp [cardLoopStep, hx]

theorem foldl_cardLoopStep_connected (em : EntityManager) (now : Nat)
    (chassis : ChassisEntity) (lookup : EntityLookup) (req : GetBootstrapDataRequest)
    (l : List ControlCard) (acc : LoopAcc) :
    (List.foldl (cardLoopStep em now chassis lookup req) acc l).state.connectedChassis =
      acc.state.connectedChassis := by
  induction l generalizing acc with
  | nil => rfl
  | cons v rest ih =>
      rw [List.foldl_cons, ih, cardLoopStep_state_connected]

theorem foldl_cardLoopStep_failed (em : EntityManager) (now : Nat)
    (chassis : ChassisEntity) (lookup : EntityLookup) (req : GetBootstrapDataRequest)
    (l : List ControlCard) (acc : LoopAcc) :
    (List.foldl (cardLoopStep em now chassis lookup req) acc l).state.failedRequest =
      acc.state.failedRequest := by
  induction l generalizing acc with
  | nil => rfl
  | cons v rest ih =>
      rw [List.foldl_cons, ih, cardLoopStep_state_failed]

theorem gbdFinish_state (em : EntityManager) (req : GetBootstrapDataRequest)
    (lookup : EntityLookup) (ccSerial : String) (acc1 : LoopAcc) :
    (gbdFinish em req lookup ccSerial false acc1).state = acc1.state := by
  simp only [gbdFinish]
  split
  · next h => simp at h
  · split
    · rfl
    · split
      · split <;> rfl
      · rfl

/-- The full run of `GetBootstrapData` on a SECURE chassis with no nonce:
the chassis is marked connected, then the call is rejected before the
per-card loop. -/
theorem gbd_secure_no_nonce (em : EntityManager) (now : Nat) (s : ServiceState)
    (req : GetBootstrapDataRequest) (chassis : ChassisEntity)
    (hcards : req.chassisDescriptor.controlCards ≠ [])
    (hres : em.resolveChassis (lookupOf req) (ccSerialOf req) = Except.ok chassis)
    (hsec : chassis.bootMode = BootMode.secure)
    (hnonce : req.nonce = "") :
    Service.getBootstrapData em now s req =
      { state := { s with connectedChassis := lookupInsert s.connectedChassis (lookupOf req) }
        result := Except.error
          (RpcErr.status Code.invalidArgument "chassis requires secure boot only")
        trace := [EMCall.resolveChassis (lookupOf req) (ccSerialOf req)] } := by
  have hlen : ¬ req.chassisDescriptor.controlCards.length = 0 := by
    simpa using hcards
  simp [Service.getBootstrapData, hlen, hres, hsec, hnonce]

/-- If `GetBootstrapData` succeeds, the run marked the chassis connected. -/
theorem gbd_ok_connected (em : EntityManager) (now : Nat) (s : ServiceState)
    (req : GetBootstrapDataRequest) (resp : GetBootstrapDataResponse)
    (h : (Service.getBootstrapData em now s req).result = Except.ok resp) :
    (Service.getBootstrapData em now s req).state.connectedChassis =
      lookupInsert s.connectedChassis (lookupOf req) := by
  by_cases hlen : req.chassisDescriptor.controlCards.length = 0
  · simp [Service.getBootstrapData, hlen] at h
  · cases hres : em.resolveChassis (lookupOf req) (ccSerialOf req) with
    | error e => simp [Service.getBootstrapData, hlen, hres] at h
    | ok chassis =>
        by_cases hsec : chassis.bootMode = BootMode.secure ∧ req.nonce = ""
        · simp [Service.getBootstrapData, hlen, hres, hsec] at h
        · have hfix : (if 1 ≤ req.chassisDescriptor.controlCards.length then false else true)
              = false := by
            simp [Nat.one_le_iff_ne_zero, hlen]
          simp only [Service.getBootstrapData, if_neg hlen, hres, if_neg hsec, hfix]
          rw [gbdFinish_state, foldl_cardLoopStep_connected]

theorem foldl_cardLoopStep_calls_any (em : EntityManager) (now : Nat)
    (chassis : ChassisEntity) (lookup : EntityLookup) (req : GetBootstrapDataRequest)
    (l : List ControlCard) (acc : LoopAcc) (p : EMCall → Bool)
    (hacc : acc.calls.any p = false)
    (hp : ∀ v, p (EMCall.getBootstrapData lookup (some v)) = false) :
    ((List.foldl (cardLoopStep em now chassis lookup req) acc l).calls.any p) = false := by
  induction l generalizing acc with
  | nil => exact hacc
  | cons v rest ih =>
      rw [List.foldl_cons]
      apply ih
      rw [cardLoopStep_calls, List.any_append]
      simp [hacc, hp]

theorem gbdFinish_trace_any_false (em : EntityManager) (req : GetBootstrapDataRequest)
    (lookup : EntityLookup) (ccSerial : String) (acc1 : LoopAcc) (p : EMCall → Bool)
    (hresolve : p (EMCall.resolveChassis lookup ccSerial) = false)
    (hcalls : acc1.calls.any p = false)
    (hsign : ∀ r l ser, p (EMCall.sign r l ser) = false) :
    ((gbdFinish em req lookup ccSerial false acc1).trace.any p) = false := by
  simp only [gbdFinish]
  split
  · next h => simp at h
  · split
    · simp [List.any_cons, hresolve, hcalls]
    · split
      · split <;> simp [List.any_cons, List.any_append, hresolve, hcalls, hsign]
      · simp [List.any_cons, hresolve, hcalls]

theorem cardLoopStep_error (em : EntityManager) (now : Nat) (chassis : ChassisEntity)
    (lookup : EntityLookup) (req : GetBootstrapDataRequest) (acc : LoopAcc)
    (v : ControlCard) (e : Err)
    (h : em.getBootstrapData lookup (some v) = Except.error e) :
    cardLoopStep em now chassis lookup req acc v =
      { state := { acc.state with
          activeBoots :=
            abUpdate
              (abUpdate
                (abInsert acc.state.activeBoots v.serialNumber
                  { bootMode := chassis.bootMode, startTimeStamp := now, endTimeStamp := 0,
                    status := [], lastStatus := ControlCardStatus.unspecified,
                    bootResponse := none, bootRequest := some req, err := none })
                v.serialNumber (fun b => { b with err := some e }))
              v.serialNumber (fun b => { b with bootResponse := none }) }
        errs := acc.errs ++ [e]
        responses := acc.responses ++ [none]
        calls := acc.calls ++ [EMCall.getBootstrapData lookup (some v)] } := by
  simp [cardLoopStep, h]

theorem cardLoopStep_ok (em : EntityManager) (now : Nat) (chassis : ChassisEntity)
    (lookup : EntityLookup) (req : GetBootstrapDataRequest) (acc : LoopAcc)
    (v : ControlCard) (r : BootstrapDataResponse)
    (h : em.getBootstrapData lookup (some v) = Except.ok r) :
    cardLoopStep em now chassis lookup req acc v =
      { state := { acc.state with
          activeBoots :=
            abUpdate
              (abInsert acc.state.activeBoots v.serialNumber
                { bootMode := chassis.bootMode, startTimeStamp := now, endTimeStamp := 0,
                  status := [], lastStatus := ControlCardStatus.unspecified,
                  bootResponse := none, bootRequest := some req, err := none })
              v.serialNumber (fun b => { b with bootResponse := some r }) }
        errs := acc.errs
        responses := acc.responses ++ [some r]
        calls := acc.calls ++ [EMCall.getBootstrapData lookup (some v)] } := by
  simp [cardLoopStep, h]

/-- The main path of `GetBootstrapData` (cards present, chassis resolved,
boot-mode policy passed) is the per-card loop followed by `gbdFinish`, with
the chassis already marked connected and `fixedChasis` false. -/
theorem gbd_main_run (em : EntityManager) (now : Nat) (s : ServiceState)
    (req : GetBootstrapDataRequest) (chassis : ChassisEntity)
    (hlen : ¬ req.chassisDescriptor.controlCards.length = 0)
    (hres : em.resolveChassis (lookupOf req) (ccSerialOf req) = Except.ok chassis)
    (hsec : ¬ (chassis.bootMode = BootMode.secure ∧ req.nonce = "")) :
    Service.getBootstrapData em now s req =
      gbdFinish em req (lookupOf req) (ccSerialOf req) false
        (List.foldl (cardLoopStep em now chassis (lookupOf req) req)
          { state := { s with connectedChassis := lookupInsert s.connectedChassis (lookupOf req) }
            errs := [], responses := [], calls := [] }
          req.chassisDescriptor.controlCards) := by
  have hfix : (if 1 ≤ req.chassisDescriptor.controlCards.length then false else true)
      = false := by
    simp [Nat.one_le_iff_ne_zero, hlen]
  simp only [Service.getBootstrapData, if_neg hlen, hres, if_neg hsec, hfix]

/-- With no nonce, the `gbdFinish` trace is the resolution call followed by
the loop's calls — no signing call. -/
theorem gbdFinish_trace_no_nonce (em : EntityManager) (req : GetBootstrapDataRequest)
    (lookup : EntityLookup) (ccSerial : String) (acc1 : LoopAcc)
    (hn : req.nonce = "") :
    (gbdFinish em req lookup ccSerial false acc1).trace =
      EMCall.resolveChassis lookup ccSerial :: acc1.calls := by
  by_cases herr : acc1.errs = [] <;> simp [gbdFinish, herr, hn]

theorem foldl_cardLoopStep_calls_mem (em : EntityManager) (now : Nat)
    (chassis : ChassisEntity) (lookup : EntityLookup) (req : GetBootstrapDataRequest)
    (l : List ControlCard) (acc : LoopAcc) (c : EMCall) :
    c ∈ (List.foldl (cardLoopStep em now chassis lookup req) acc l).calls →
    c ∈ acc.calls ∨ ∃ v, c = EMCall.getBootstrapData lookup (some v) := by
  induction l generalizing acc with
  | nil => exact fun h => Or.inl h
  | cons v rest ih =>
      intro h
      rw [List.foldl_cons] at h
      rcases ih (cardLoopStep em now chassis lookup req acc v) h with h1 | h1
      · rw [cardLoopStep_calls] at h1
        rcases List.mem_append.mp h1 with h2 | h2
        · exact Or.inl h2
        · exact Or.inr ⟨v, by simpa using h2⟩
      · exact Or.inr h1

/-- Every call in a `gbdFinish` trace (no fixed-chassis fetch) is the chassis
resolution, a loop call, or — only with a nonce and no accumulated errors —
the signing call on the assembled envelope carrying the request's nonce. -/
theorem gbdFinish_trace_mem (em : EntityManager) (req : GetBootstrapDataRequest)
    (lookup : EntityLookup) (ccSerial : String) (acc1 : LoopAcc) (c : EMCall)
    (h : c ∈ (gbdFinish em req lookup ccSerial false acc1).trace) :
    c = EMCall.resolveChassis lookup ccSerial ∨ c ∈ acc1.calls ∨
      (req.nonce ≠ "" ∧ acc1.errs = [] ∧
        c = EMCall.sign
            { signedResponse := some { responses := acc1.responses, nonce := req.nonce }
              responseSignature := ""
              ownershipCertificate := ""
              ownershipVoucher := "" }
            lookup (ccStateSerial req)) := by
  by_cases herr : acc1.errs = []
  · by_cases hn : req.nonce = ""
    · have ht : (gbdFinish em req lookup ccSerial false acc1).trace =
          EMCall.resolveChassis lookup ccSerial :: acc1.calls := by
        simp [gbdFinish, herr, hn]
      rw [ht] at h
      rcases List.mem_cons.mp h with h1 | h1
      · exact Or.inl h1
      · exact Or.inr (Or.inl h1)
    · cases hs : em.sign
          { signedResponse := some { responses := acc1.responses, nonce := req.nonce }
            responseSignature := ""
            ownershipCertificate := ""
            ownershipVoucher := "" } lookup (ccStateSerial req) with
      | error e2 =>
          have ht : (gbdFinish em req lookup ccSerial false acc1).trace =
              EMCall.resolveChassis lookup ccSerial :: (acc1.calls ++
                [EMCall.sign
                  { signedResponse := some { responses := acc1.responses, nonce := req.nonce }
                    responseSignature := ""
                    ownershipCertificate := ""
                    ownershipVoucher := "" }
                  lookup (ccStateSerial req)]) := by
            simp [gbdFinish, herr, hn, hs]
          rw [ht] at h
          rcases List.mem_cons.mp h with h1 | h1
          · exact Or.inl h1
          · rcases List.mem_append.mp h1 with h2 | h2
            · exact Or.inr (Or.inl h2)
            · exact Or.inr (Or.inr ⟨hn, herr, by simpa using h2⟩)
      | ok signed =>
          have ht : (gbdFinish em req lookup ccSerial false acc1).trace =
              EMCall.resolveChassis lookup ccSerial :: (acc1.calls ++
                [EMCall.sign
                  { signedResponse := some { responses := acc1.responses, nonce := req.nonce }
                    responseSignature := ""
                    ownershipCertificate := ""
                    ownershipVoucher := "" }
                  lookup (ccStateSerial req)]) := by
            simp [gbdFinish, herr, hn, hs]
          rw [ht] at h
          rcases List.mem_cons.mp h with h1 | h1
          · exact Or.inl h1
          · rcases List.mem_append.mp h1 with h2 | h2
            · exact Or.inr (Or.inl h2)
            · exact Or.inr (Or.inr ⟨hn, herr, by simpa using h2⟩)
  · have ht : (gbdFinish em req lookup ccSerial false acc1).trace =
        EMCall.resolveChassis lookup ccSerial :: acc1.calls := by
      simp [gbdFinish, herr]
    rw [ht] at h
    rcases List.mem_cons.mp h with h1 | h1
    · exact Or.inl h1
    · exact Or.inr (Or.inl h1)

/-- With no nonce, a successful `gbdFinish` returns the unsigned envelope,
whose signature field is empty. -/
theorem gbdFinish_ok_no_nonce_sig (em : EntityManager) (req : GetBootstrapDataRequest)
    (lookup : EntityLookup) (ccSerial : String) (acc1 : LoopAcc)
    (hn : req.nonce = "") (resp : GetBootstrapDataResponse)
    (h : (gbdFinish em req lookup ccSerial false acc1).result = Except.ok resp) :
    resp.responseSignature = "" := by
  by_cases herr : acc1.errs = []
  · have hr : (gbdFinish em req lookup ccSerial false acc1).result =
        Except.ok
          { signedResponse := some { responses := acc1.responses, nonce := "" }
            responseSignature := ""
            ownershipCertificate := ""
            ownershipVoucher := "" } := by
      simp [gbdFinish, herr, hn]
    rw [hr] at h
    injection h with h1
    rw [← h1]
  · have hr : (gbdFinish em req lookup ccSerial false acc1).result =
        Except.error (RpcErr.errList acc1.errs) := by
      simp [gbdFinish, herr]
    rw [hr] at h
    exact absurd h (by simp)

/-- With a nonce, a failing `Sign` call makes `gbdFinish` fail `Internal`. -/
theorem gbdFinish_sign_error (em : EntityManager) (req : GetBootstrapDataRequest)
    (lookup : EntityLookup) (ccSerial : String) (acc1 : LoopAcc)
    (hn : req.nonce ≠ "") (herr : acc1.errs = []) (e2 : Err)
    (hs : em.sign
        { signedResponse := some { responses := acc1.responses, nonce := req.nonce }
          responseSignature := ""
          ownershipCertificate := ""
          ownershipVoucher := "" } lookup (ccStateSerial req) = Except.error e2) :
    (gbdFinish em req lookup ccSerial false acc1).result =
      Except.error (RpcErr.status Code.internal "failed to sign bootz response") := by
  simp [gbdFinish, herr, hn, hs]

/-- With a nonce, a successful `gbdFinish` performed a signing call (its trace
ends with one). -/
theorem gbdFinish_ok_nonce_signed (em : EntityManager) (req : GetBootstrapDataRequest)
    (lookup : EntityLookup) (ccSerial : String) (acc1 : LoopAcc)
    (hn : req.nonce ≠ "") (resp : GetBootstrapDataResponse)
    (h : (gbdFinish em req lookup ccSerial false acc1).result = Except.ok resp) :
    ((gbdFinish em req lookup ccSerial false acc1).trace.any isSignCall) = true := by
  by_cases herr : acc1.errs = []
  · cases hs : em.sign
        { signedResponse := some { responses := acc1.responses, nonce := req.nonce }
          responseSignature := ""
          ownershipCertificate := ""
          ownershipVoucher := "" } lookup (ccStateSerial req) with
    | error e2 =>
        have hr := gbdFinish_sign_error em req lookup ccSerial acc1 hn herr e2 hs
        rw [hr] at h
        exact absurd h (by simp)
    | ok signed =>
        have ht : (gbdFinish em req lookup ccSerial false acc1).trace =
            EMCall.resolveChassis lookup ccSerial :: (acc1.calls ++
              [EMCall.sign
                { signedResponse := some { responses := acc1.responses, nonce := req.nonce }
                  responseSignature := ""
                  ownershipCertificate := ""
                  ownershipVoucher := "" }
                lookup (ccStateSerial req)]) := by
          simp [gbdFinish, herr, hn, hs]
        rw [ht]
        simp [List.any_cons, List.any_append, isSignCall]
  · have hr : (gbdFinish em req lookup ccSerial false acc1).result =
        Except.error (RpcErr.errList acc1.errs) := by
      simp [gbdFinish, herr]
    rw [hr] at h
    exact absurd h (by simp)

/-! `ReportStatus` update-loop lemmas. -/

theorem abLookup_abInsert_isSome (ab : List (String × bootLog)) (k : String) (v : bootLog)
    (h : (abLookup ab k).isSome) (k' : String) :
    (abLookup (abInsert ab k v) k').isSome = (abLookup ab k').isSome := by
  rw [abLookup_abInsert]
  by_cases hk : k' = k
  · subst hk; simp [h]
  · simp [hk]

theorem applyStates_isSome (now : Nat) (states : List ControlCardState) :
    ∀ ab, (applyStates now ab states).isSome ↔
      ∀ st ∈ states, (abLookup ab st.serialNumber).isSome := by
  induction states with
  | nil => intro ab; simp [applyStates]
  | cons st rest ih =>
      intro ab
      cases hb : abLookup ab st.serialNumber with
      | none =>
          have heq : applyStates now ab (st :: rest) = none := by
            simp [applyStates, hb]
          rw [heq]
          simp only [Option.isSome_none, Bool.false_eq_true, false_iff]
          intro hall
          have hx := hall st (List.mem_cons_self st rest)
          rw [hb] at hx
          simp at hx
      | some b =>
          have heq : applyStates now ab (st :: rest) =
              applyStates now (abInsert ab st.serialNumber (applyOne now b st)) rest := by
            simp [applyStates, hb]
          have hbs : (abLookup ab st.serialNumber).isSome = true := by rw [hb]; rfl
          rw [heq, ih]
          constructor
          · intro hall st' hst'
            rcases List.mem_cons.mp hst' with h1 | h1
            · subst h1; rw [hb]; rfl
            · have hx := hall st' h1
              rwa [abLookup_abInsert_isSome ab st.serialNumber _ hbs] at hx
          · intro hall st' hst'
            rw [abLookup_abInsert_isSome ab st.serialNumber _ hbs]
            exact hall st' (List.mem_cons_of_mem st hst')

theorem applyStates_notmem (now : Nat) (states : List ControlCardState) :
    ∀ ab ab', applyStates now ab states = some ab' →
      ∀ k, (∀ st ∈ states, st.serialNumber ≠ k) → abLookup ab' k = abLookup ab k := by
  induction states with
  | nil =>
      intro ab ab' h k _
      simp only [applyStates, Option.some.injEq] at h
      rw [h]
  | cons st rest ih =>
      intro ab ab' h k hk
      cases hb : abLookup ab st.serialNumber with
      | none => simp [applyStates, hb] at h
      | some b =>
          have hd : applyStates now (abInsert ab st.serialNumber (applyOne now b st)) rest
              = some ab' := by
            simpa [applyStates, hb] using h
          have h1 := ih _ ab' hd k (fun st' hst' => hk st' (List.mem_cons_of_mem st hst'))
          rw [h1, abLookup_abInsert, if_neg]
          intro hc
          exact hk st (List.mem_cons_self st rest) hc.symm

theorem applyStates_char (now : Nat) (states : List ControlCardState) :
    ∀ ab, (states.map fun st => st.serialNumber).Nodup →
      (∀ st ∈ states, (abLookup ab st.serialNumber).isSome) →
      ∃ ab', applyStates now ab states = some ab' ∧
        ∀ st ∈ states, ∀ b, abLookup ab st.serialNumber = some b →
          abLookup ab' st.serialNumber = some (applyOne now b st) := by
  induction states with
  | nil => intro ab _ _; exact ⟨ab, by simp [applyStates], by simp⟩
  | cons st rest ih =>
      intro ab hnd hall
      have hbs : (abLookup ab st.serialNumber).isSome :=
        hall st (List.mem_cons_self st rest)
      obtain ⟨b, hb⟩ := Option.isSome_iff_exists.mp hbs
      rw [List.map_cons, List.nodup_cons] at hnd
      obtain ⟨hnotmem, hnd'⟩ := hnd
      have hne : ∀ st' ∈ rest, st'.serialNumber ≠ st.serialNumber := by
        intro st' hst' hc
        exact hnotmem (by rw [← hc]; exact List.mem_map_of_mem _ hst')
      have hall' : ∀ st' ∈ rest,
          (abLookup (abInsert ab st.serialNumber (applyOne now b st)) st'.serialNumber).isSome := by
        intro st' hst'
        rw [abLookup_abInsert_isSome ab st.serialNumber _ hbs]
        exact hall st' (List.mem_cons_of_mem st hst')
      obtain ⟨ab', hab', hchar⟩ := ih _ hnd' hall'
      refine ⟨ab', by simp [applyStates, hb, hab'], ?_⟩
      intro st' hst' b' hb'
      rcases List.mem_cons.mp hst' with h1 | h1
      · subst h1
        rw [hb] at hb'
        injection hb' with hbb
        subst hbb
        have hx := applyStates_notmem now rest _ ab' hab' st'.serialNumber hne
        rw [hx, abLookup_abInsert, if_pos rfl]
      · have hne1 : st'.serialNumber ≠ st.serialNumber := hne st' h1
        have hl : abLookup (abInsert ab st.serialNumber (applyOne now b st)) st'.serialNumber
            = abLookup ab st'.serialNumber := by
          rw [abLookup_abInsert, if_neg hne1]
        exact hchar st' h1 b' (by rw [hl, hb'])

/-! Claim theorems. -/

/-- C1: `ReportStatus` has the inverted contract of the source.  When
`SetStatus` returns nil, that nil result is returned directly in the error
position (so the caller gets a nil response and a nil error) and nothing is
applied; when `SetStatus` returns an error, every reported status is appended
to the matching boot log's history, `LastStatus` is updated, `EndTimeStamp`
is set exactly when the reported status is INITIALIZED, and the call returns
success. -/
theorem C1_reportStatus_inverted (em : EntityManager) (now : Nat) (s : ServiceState)
    (req : ReportStatusRequest)
    (hnd : (req.states.map fun st => st.serialNumber).Nodup) :
    (em.setStatus req = none →
      Service.reportStatus em now s req = ReportOutcome.ok s none (em.setStatus req))
    ∧ ∀ e, em.setStatus req = some e →
        (∀ st ∈ req.states, (abLookup s.activeBoots st.serialNumber).isSome) →
        ∃ ab, applyStates now s.activeBoots req.states = some ab
          ∧ Service.reportStatus em now s req =
              ReportOutcome.ok { s with activeBoots := ab } (some EmptyResponse.mk) none
          ∧ ∀ st ∈ req.states, ∀ b, abLookup s.activeBoots st.serialNumber = some b →
              abLookup ab st.serialNumber = some
                { b with
                  status := b.status ++ [st.status]
                  lastStatus := st.status
                  endTimeStamp :=
                    if st.status = ControlCardStatus.initialized then now
                    else b.endTimeStamp } := by
  constructor
  · intro h; simp [Service.reportStatus, h]
  · intro e he hall
    obtain ⟨ab, hab, hchar⟩ := applyStates_char now req.states s.activeBoots hnd hall
    refine ⟨ab, hab, by simp [Service.reportStatus, he, hab], ?_⟩
    intro st hst b hb
    rw [hchar st hst b hb]
    unfold applyOne
    by_cases hi : st.status = ControlCardStatus.initialized
    · simp [hi]
    · simp [hi]

/-- Witness for C1: both branches at concrete inputs — `SetStatus` nil with a
nil return, and `SetStatus` error with the INITIALIZED update applied. -/
theorem C1_reportStatus_inverted_witness :
    Service.reportStatus emDemo 9 sBootA rsReqA = ReportOutcome.ok sBootA none none
    ∧ Service.reportStatus emSetStatusErr 9 sBootA rsReqA =
        ReportOutcome.ok
          { sBootA with activeBoots := [("123A",
              { bootLog.zero with
                status := [ControlCardStatus.initialized]
                lastStatus := ControlCardStatus.initialized
                endTimeStamp := 9 })] }
          (some EmptyResponse.mk) none := by
  constructor
  · exact (C1_reportStatus_inverted emDemo 9 sBootA rsReqA (by decide)).1 rfl
  · obtain ⟨ab, hab, heq, -⟩ :=
      (C1_reportStatus_inverted emSetStatusErr 9 sBootA rsReqA (by decide)).2
        { code := Code.notFound, msg := "no active boot" } rfl (by decide)
    have hc : applyStates 9 sBootA.activeBoots rsReqA.states =
        some [("123A",
          { bootLog.zero with
            status := [ControlCardStatus.initialized]
            lastStatus := ControlCardStatus.initialized
            endTimeStamp := 9 })] := by decide
    rw [hab] at hc
    injection hc with hc'
    rw [heq, hc']

/-- C7: when `SetStatus` returns an error, the `ReportStatus` update loop
dereferences the boot-log map entry of every reported serial; a reported
serial with no entry is a nil dereference, and the loop is safe exactly
under the precondition that every reported serial has a boot log. -/
theorem C7_reportStatus_missing_serial (em : EntityManager) (now : Nat)
    (s : ServiceState) (req : ReportStatusRequest) :
    ∀ e, em.setStatus req = some e →
      ((∃ st ∈ req.states, abLookup s.activeBoots st.serialNumber = none) →
        Service.reportStatus em now s req = ReportOutcome.nilDeref)
      ∧ ((∀ st ∈ req.states, (abLookup s.activeBoots st.serialNumber).isSome) →
        ∃ ab, Service.reportStatus em now s req =
          ReportOutcome.ok { s with activeBoots := ab } (some EmptyResponse.mk) none) := by
  intro e he
  constructor
  · rintro ⟨st, hst, hnone⟩
    have hno : ¬ (applyStates now s.activeBoots req.states).isSome = true := by
      rw [applyStates_isSome]
      intro hall
      have hx := hall st hst
      rw [hnone] at hx
      simp at hx
    have h2 : applyStates now s.activeBoots req.states = none := by
      cases hx : applyStates now s.activeBoots req.states with
      | none => rfl
      | some ab => rw [hx] at hno; simp at hno
    simp [Service.reportStatus, he, h2]
  · intro hall
    have hsome : (applyStates now s.activeBoots req.states).isSome :=
      (applyStates_isSome now req.states s.activeBoots).mpr hall
    obtain ⟨ab, hab⟩ := Option.isSome_iff_exists.mp hsome
    exact ⟨ab, by simp [Service.reportStatus, he, hab]⟩

/-- Witness for C7: a missing-serial report dereferences nil; a report whose
serial has a boot log succeeds. -/
theorem C7_reportStatus_missing_serial_witness :
    Service.reportStatus emSetStatusErr 9 sBootA rsReqMissing = ReportOutcome.nilDeref
    ∧ Service.reportStatus emSetStatusErr 9 sBootA rsReqA =
        ReportOutcome.ok
          { sBootA with activeBoots := [("123A",
              { bootLog.zero with
                status := [ControlCardStatus.initialized]
                lastStatus := ControlCardStatus.initialized
                endTimeStamp := 9 })] }
          (some EmptyResponse.mk) none := by
  constructor
  · exact (C7_reportStatus_missing_serial emSetStatusErr 9 sBootA rsReqMissing
        { code := Code.notFound, msg := "no active boot" } rfl).1
      ⟨{ serialNumber := "999", status := ControlCardStatus.initialized }, by decide, by decide⟩
  · obtain ⟨ab, hab⟩ := (C7_reportStatus_missing_serial emSetStatusErr 9 sBootA rsReqA
        { code := Code.notFound, msg := "no active boot" } rfl).2 (by decide)
    have hc : Service.reportStatus emSetStatusErr 9 sBootA rsReqA =
        ReportOutcome.ok
          { sBootA with activeBoots := [("123A",
              { bootLog.zero with
                status := [ControlCardStatus.initialized]
                lastStatus := ControlCardStatus.initialized
                endTimeStamp := 9 })] }
          (some EmptyResponse.mk) none := by decide
    exact hc

/-- C5 (amended): the fixed-chassis chassis-level fetch never happens.  A
request with zero control cards is rejected before any fetch, and on every
run the entity manager's `GetBootstrapData` is never called with a nil
control card. -/
theorem C5_no_fixed_chassis_fetch (em : EntityManager) (now : Nat) (s : ServiceState)
    (req : GetBootstrapDataRequest) :
    ((Service.getBootstrapData em now s req).trace.any isChassisLevelFetch) = false := by
  by_cases hlen : req.chassisDescriptor.controlCards.length = 0
  · simp [Service.getBootstrapData, hlen]
  · cases hres : em.resolveChassis (lookupOf req) (ccSerialOf req) with
    | error e => simp [Service.getBootstrapData, hlen, hres, isChassisLevelFetch]
    | ok chassis =>
        by_cases hsec : chassis.bootMode = BootMode.secure ∧ req.nonce = ""
        · simp [Service.getBootstrapData, hlen, hres, hsec, isChassisLevelFetch]
        · have hfix : (if 1 ≤ req.chassisDescriptor.controlCards.length then false else true)
              = false := by
            simp [Nat.one_le_iff_ne_zero, hlen]
          simp only [Service.getBootstrapData, if_neg hlen, hres, if_neg hsec, hfix]
          apply gbdFinish_trace_any_false
          · rfl
          · apply foldl_cardLoopStep_calls_any
            · rfl
            · intro v; rfl
          · intro r l ser; rfl

/-- Counterexample to C5 as stated: for the concrete request with zero
control cards, no chassis-level (nil-card) fetch happens and nothing is
appended — the call is rejected with `InvalidArgument` up front. -/
theorem C5_counterexample :
    reqEmpty.chassisDescriptor.controlCards = []
    ∧ ((Service.getBootstrapData emDemo 0 Service.new reqEmpty).trace.any
        isChassisLevelFetch) = false
    ∧ (Service.getBootstrapData emDemo 0 Service.new reqEmpty).result =
        Except.error
          (RpcErr.status Code.invalidArgument "request must include at least one control card") := by
  refine ⟨rfl, rfl, by decide⟩

/-- C4: a `GetBootstrapData` request listing zero control cards fails with
`InvalidArgument`; the request is recorded in the failed-request ledger, and
`connectedChassis` and `activeBoots` are unchanged. -/
theorem C4_empty_cards (em : EntityManager) (now : Nat) (s : ServiceState)
    (req : GetBootstrapDataRequest) (h : req.chassisDescriptor.controlCards = []) :
    Service.getBootstrapData em now s req =
      { state := { s with failedRequest := s.failedRequest ++
          [(req, RpcErr.status Code.invalidArgument "request must include at least one control card")] }
        result := Except.error
          (RpcErr.status Code.invalidArgument "request must include at least one control card")
        trace := [] }
    ∧ (Service.getBootstrapData em now s req).state.connectedChassis = s.connectedChassis
    ∧ (Service.getBootstrapData em now s req).state.activeBoots = s.activeBoots := by
  have hmain : Service.getBootstrapData em now s req =
      { state := { s with failedRequest := s.failedRequest ++
          [(req, RpcErr.status Code.invalidArgument "request must include at least one control card")] }
        result := Except.error
          (RpcErr.status Code.invalidArgument "request must include at least one control card")
        trace := [] } := by
    simp [Service.getBootstrapData, h]
  exact ⟨hmain, by rw [hmain], by rw [hmain]⟩

/-- Witness for C4 at the concrete empty-card request. -/
theorem C4_empty_cards_witness :
    Service.getBootstrapData emNever 0 Service.new reqEmpty =
      { state := { Service.new with failedRequest := Service.new.failedRequest ++
          [(reqEmpty, RpcErr.status Code.invalidArgument "request must include at least one control card")] }
        result := Except.error
          (RpcErr.status Code.invalidArgument "request must include at least one control card")
        trace := [] }
    ∧ (Service.getBootstrapData emNever 0 Service.new reqEmpty).state.connectedChassis =
        Service.new.connectedChassis
    ∧ (Service.getBootstrapData emNever 0 Service.new reqEmpty).state.activeBoots =
        Service.new.activeBoots :=
  C4_empty_cards emNever 0 Service.new reqEmpty rfl

/-- C3: when the chassis resolves to BootMode SECURE and the request carries
no nonce, `GetBootstrapData` fails with `InvalidArgument` before any per-card
processing (the trace holds only the resolution call), for any entity manager
and hence regardless of control-card validity. -/
theorem C3_secure_requires_nonce (em : EntityManager) (now : Nat) (s : ServiceState)
    (req : GetBootstrapDataRequest) (chassis : ChassisEntity)
    (hcards : req.chassisDescriptor.controlCards ≠ [])
    (hres : em.resolveChassis (lookupOf req) (ccSerialOf req) = Except.ok chassis)
    (hsec : chassis.bootMode = BootMode.secure)
    (hnonce : req.nonce = "") :
    (Service.getBootstrapData em now s req).result =
      Except.error (RpcErr.status Code.invalidArgument "chassis requires secure boot only")
    ∧ (Service.getBootstrapData em now s req).trace =
        [EMCall.resolveChassis (lookupOf req) (ccSerialOf req)] := by
  have h := gbd_secure_no_nonce em now s req chassis hcards hres hsec hnonce
  exact ⟨by rw [h], by rw [h]⟩

/-- Witness for C3: the SECURE test chassis, a no-nonce request with two cards. -/
theorem C3_secure_requires_nonce_witness :
    (Service.getBootstrapData emSecure 0 Service.new reqAB).result =
      Except.error (RpcErr.status Code.invalidArgument "chassis requires secure boot only")
    ∧ (Service.getBootstrapData emSecure 0 Service.new reqAB).trace =
        [EMCall.resolveChassis (lookupOf reqAB) (ccSerialOf reqAB)] :=
  C3_secure_requires_nonce emSecure 0 Service.new reqAB
    { bootMode := BootMode.secure } (by decide) (by decide) rfl rfl

/-- C9: the SECURE-without-nonce rejection happens after the chassis is
marked connected but before per-card work: the chassis is in the
connected set and `activeBoots` and `failedRequest` are untouched. -/
theorem C9_secure_no_nonce_frame (em : EntityManager) (now : Nat) (s : ServiceState)
    (req : GetBootstrapDataRequest) (chassis : ChassisEntity)
    (hcards : req.chassisDescriptor.controlCards ≠ [])
    (hres : em.resolveChassis (lookupOf req) (ccSerialOf req) = Except.ok chassis)
    (hsec : chassis.bootMode = BootMode.secure)
    (hnonce : req.nonce = "") :
    (Service.getBootstrapData em now s req).state =
      { s with connectedChassis := lookupInsert s.connectedChassis (lookupOf req) }
    ∧ Service.isChassisConnected (Service.getBootstrapData em now s req).state
        (lookupOf req) = true
    ∧ (Service.getBootstrapData em now s req).state.activeBoots = s.activeBoots
    ∧ (Service.getBootstrapData em now s req).state.failedRequest = s.failedRequest := by
  have h := gbd_secure_no_nonce em now s req chassis hcards hres hsec hnonce
  refine ⟨by rw [h], ?_, by rw [h], by rw [h]⟩
  rw [h]
  exact lookupMember_lookupInsert_self s.connectedChassis (lookupOf req)

/-- Witness for C9 at the SECURE test chassis. -/
theorem C9_secure_no_nonce_frame_witness :
    (Service.getBootstrapData emSecure 0 sBootA reqAB).state =
      { sBootA with connectedChassis := lookupInsert sBootA.connectedChassis (lookupOf reqAB) }
    ∧ Service.isChassisConnected (Service.getBootstrapData emSecure 0 sBootA reqAB).state
        (lookupOf reqAB) = true
    ∧ (Service.getBootstrapData emSecure 0 sBootA reqAB).state.activeBoots = sBootA.activeBoots
    ∧ (Service.getBootstrapData emSecure 0 sBootA reqAB).state.failedRequest =
        sBootA.failedRequest :=
  C9_secure_no_nonce_frame emSecure 0 sBootA reqAB
    { bootMode := BootMode.secure } (by decide) (by decide) rfl rfl

/-- C10: after a successful `GetBootstrapData` the requested chassis lookup is
connected; `ResetStatus` empties all three ledger maps, after which
`IsChassisConnected` is false for every lookup. -/
theorem C10_connected_then_reset (em : EntityManager) (now : Nat) (s : ServiceState)
    (req : GetBootstrapDataRequest) (resp : GetBootstrapDataResponse)
    (st : ServiceState) (l l' : EntityLookup) :
    ((Service.getBootstrapData em now s req).result = Except.ok resp →
      Service.isChassisConnected (Service.getBootstrapData em now s req).state
        (lookupOf req) = true)
    ∧ Service.resetStatus st l' =
        { connectedChassis := [], activeBoots := [], failedRequest := [] }
    ∧ Service.isChassisConnected (Service.resetStatus st l') l = false := by
  refine ⟨?_, rfl, rfl⟩
  intro h
  unfold Service.isChassisConnected
  rw [gbd_ok_connected em now s req resp h]
  exact lookupMember_lookupInsert_self s.connectedChassis (lookupOf req)

/-- Witness for C10: a successful run for `{Cisco, 123}`, then a reset. -/
theorem C10_connected_then_reset_witness :
    Service.isChassisConnected (Service.getBootstrapData emDemo 7 Service.new reqAB).state
      (lookupOf reqAB) = true
    ∧ Service.resetStatus sBootA lookupCisco =
        { connectedChassis := [], activeBoots := [], failedRequest := [] }
    ∧ Service.isChassisConnected (Service.resetStatus sBootA lookupCisco) lookupCisco = false := by
  obtain ⟨h1, h2, h3⟩ :=
    C10_connected_then_reset emDemo 7 Service.new reqAB respAB sBootA lookupCisco lookupCisco
  exact ⟨h1 (by decide), h2, h3⟩

/-- C8: `GetBootStatus` on an absent serial returns the zero boot log together
with the not-found error; on a present serial it returns a copy of the entry
and no error. -/
theorem C8_getBootStatus (s : ServiceState) (serial : String) :
    (abLookup s.activeBoots serial = none →
      Service.getBootStatus s serial =
        (bootLog.zero, some (RpcErr.plain ("no boot log found for controller card " ++ serial))))
    ∧ ∀ b, abLookup s.activeBoots serial = some b →
        Service.getBootStatus s serial = (b, none) := by
  constructor
  · intro h; simp [Service.getBootStatus, h]
  · intro b h; simp [Service.getBootStatus, h]

/-- Witness for C8: a missing serial and a present serial. -/
theorem C8_getBootStatus_witness :
    Service.getBootStatus sBootA "999" =
      (bootLog.zero, some (RpcErr.plain ("no boot log found for controller card " ++ "999")))
    ∧ Service.getBootStatus sBootA "123A" = (bootLog.zero, none) :=
  ⟨(C8_getBootStatus sBootA "999").1 (by decide),
   (C8_getBootStatus sBootA "123A").2 bootLog.zero (by decide)⟩

/-- C2: with two control cards where the first card's fetch fails and the
second succeeds, processing continues past the failure — both cards get
boot logs (the failing card's carrying the error, the succeeding card's
carrying its response), both fetches appear in the trace, and the RPC
returns the aggregated error list. -/
theorem C2_partial_failure_isolation (em : EntityManager) (now : Nat) (s : ServiceState)
    (req : GetBootstrapDataRequest) (a b : ControlCard) (chassis : ChassisEntity)
    (r : BootstrapDataResponse) (e : Err)
    (hcards : req.chassisDescriptor.controlCards = [a, b])
    (hne : a.serialNumber ≠ b.serialNumber)
    (hres : em.resolveChassis (lookupOf req) a.serialNumber = Except.ok chassis)
    (hpolicy : ¬ (chassis.bootMode = BootMode.secure ∧ req.nonce = "")) :
    (em.getBootstrapData (lookupOf req) (some a) = Except.error e →
      em.getBootstrapData (lookupOf req) (some b) = Except.ok r →
      (Service.getBootstrapData em now s req).result = Except.error (RpcErr.errList [e])
      ∧ abLookup (Service.getBootstrapData em now s req).state.activeBoots a.serialNumber =
          some { bootMode := chassis.bootMode, startTimeStamp := now, endTimeStamp := 0,
                 status := [], lastStatus := ControlCardStatus.unspecified,
                 bootResponse := none, bootRequest := some req, err := some e }
      ∧ abLookup (Service.getBootstrapData em now s req).state.activeBoots b.serialNumber =
          some { bootMode := chassis.bootMode, startTimeStamp := now, endTimeStamp := 0,
                 status := [], lastStatus := ControlCardStatus.unspecified,
                 bootResponse := some r, bootRequest := some req, err := none }
      ∧ EMCall.getBootstrapData (lookupOf req) (some a) ∈
          (Service.getBootstrapData em now s req).trace
      ∧ EMCall.getBootstrapData (lookupOf req) (some b) ∈
          (Service.getBootstrapData em now s req).trace)
    ∧ (em.getBootstrapData (lookupOf req) (some a) = Except.ok r →
      em.getBootstrapData (lookupOf req) (some b) = Except.error e →
      (Service.getBootstrapData em now s req).result = Except.error (RpcErr.errList [e])
      ∧ abLookup (Service.getBootstrapData em now s req).state.activeBoots a.serialNumber =
          some { bootMode := chassis.bootMode, startTimeStamp := now, endTimeStamp := 0,
                 status := [], lastStatus := ControlCardStatus.unspecified,
                 bootResponse := some r, bootRequest := some req, err := none }
      ∧ abLookup (Service.getBootstrapData em now s req).state.activeBoots b.serialNumber =
          some { bootMode := chassis.bootMode, startTimeStamp := now, endTimeStamp := 0,
                 status := [], lastStatus := ControlCardStatus.unspecified,
                 bootResponse := none, bootRequest := some req, err := some e }
      ∧ EMCall.getBootstrapData (lookupOf req) (some a) ∈
          (Service.getBootstrapData em now s req).trace
      ∧ EMCall.getBootstrapData (lookupOf req) (some b) ∈
          (Service.getBootstrapData em now s req).trace) := by
  have hlen : ¬ req.chassisDescriptor.controlCards.length = 0 := by rw [hcards]; simp
  have hcc : ccSerialOf req = a.serialNumber := by simp [ccSerialOf, hcards]
  have hres2 : em.resolveChassis (lookupOf req) (ccSerialOf req) = Except.ok chassis := by
    rw [hcc]; exact hres
  have hrun := gbd_main_run em now s req chassis hlen hres2 hpolicy
  rw [hcards] at hrun
  constructor
  · intro hfa hfb
    rw [List.foldl_cons,
      cardLoopStep_error em now chassis (lookupOf req) req _ a e hfa,
      List.foldl_cons,
      cardLoopStep_ok em now chassis (lookupOf req) req _ b r hfb,
      List.foldl_nil] at hrun
    refine ⟨?_, ?_, ?_, ?_, ?_⟩
    · rw [hrun]; simp [gbdFinish]
    · rw [hrun]
      simp [gbdFinish, abLookup_abInsert, abLookup_abUpdate, hne, Ne.symm hne]
    · rw [hrun]
      simp [gbdFinish, abLookup_abInsert, abLookup_abUpdate, hne, Ne.symm hne]
    · rw [hrun]; simp [gbdFinish]
    · rw [hrun]; simp [gbdFinish]
  · intro hfa hfb
    rw [List.foldl_cons,
      cardLoopStep_ok em now chassis (lookupOf req) req _ a r hfa,
      List.foldl_cons,
      cardLoopStep_error em now chassis (lookupOf req) req _ b e hfb,
      List.foldl_nil] at hrun
    refine ⟨?_, ?_, ?_, ?_, ?_⟩
    · rw [hrun]; simp [gbdFinish]
    · rw [hrun]
      simp [gbdFinish, abLookup_abInsert, abLookup_abUpdate, hne, Ne.symm hne]
    · rw [hrun]
      simp [gbdFinish, abLookup_abInsert, abLookup_abUpdate, hne, Ne.symm hne]
    · rw [hrun]; simp [gbdFinish]
    · rw [hrun]; simp [gbdFinish]

/-- Witness for C2: card `123A` fails and `123B` succeeds under `emFetchAErr`,
and the reverse under `emFetchBErr`. -/
theorem C2_partial_failure_isolation_witness :
    ((Service.getBootstrapData emFetchAErr 7 Service.new reqAB).result =
      Except.error (RpcErr.errList [{ code := Code.notFound, msg := "control card not found" }])
    ∧ abLookup (Service.getBootstrapData emFetchAErr 7 Service.new reqAB).state.activeBoots
        cardA.serialNumber =
        some { bootMode := BootMode.insecure,
               startTimeStamp := 7, endTimeStamp := 0,
               status := [], lastStatus := ControlCardStatus.unspecified,
               bootResponse := none, bootRequest := some reqAB,
               err := some { code := Code.notFound, msg := "control card not found" } }
    ∧ abLookup (Service.getBootstrapData emFetchAErr 7 Service.new reqAB).state.activeBoots
        cardB.serialNumber =
        some { bootMode := BootMode.insecure,
               startTimeStamp := 7, endTimeStamp := 0,
               status := [], lastStatus := ControlCardStatus.unspecified,
               bootResponse := some { serialNum := "123B" }, bootRequest := some reqAB,
               err := none }
    ∧ EMCall.getBootstrapData (lookupOf reqAB) (some cardA) ∈
        (Service.getBootstrapData emFetchAErr 7 Service.new reqAB).trace
    ∧ EMCall.getBootstrapData (lookupOf reqAB) (some cardB) ∈
        (Service.getBootstrapData emFetchAErr 7 Service.new reqAB).trace)
    ∧ ((Service.getBootstrapData emFetchBErr 7 Service.new reqAB).result =
      Except.error (RpcErr.errList [{ code := Code.notFound, msg := "control card not found" }])
    ∧ abLookup (Service.getBootstrapData emFetchBErr 7 Service.new reqAB).state.activeBoots
        cardA.serialNumber =
        some { bootMode := BootMode.insecure,
               startTimeStamp := 7, endTimeStamp := 0,
               status := [], lastStatus := ControlCardStatus.unspecified,
               bootResponse := some { serialNum := "123A" }, bootRequest := some reqAB,
               err := none }
    ∧ abLookup (Service.getBootstrapData emFetchBErr 7 Service.new reqAB).state.activeBoots
        cardB.serialNumber =
        some { bootMode := BootMode.insecure,
               startTimeStamp := 7, endTimeStamp := 0,
               status := [], lastStatus := ControlCardStatus.unspecified,
               bootResponse := none, bootRequest := some reqAB,
               err := some { code := Code.notFound, msg := "control card not found" } }
    ∧ EMCall.getBootstrapData (lookupOf reqAB) (some cardA) ∈
        (Service.getBootstrapData emFetchBErr 7 Service.new reqAB).trace
    ∧ EMCall.getBootstrapData (lookupOf reqAB) (some cardB) ∈
        (Service.getBootstrapData emFetchBErr 7 Service.new reqAB).trace) :=
  ⟨(C2_partial_failure_isolation emFetchAErr 7 Service.new reqAB cardA cardB
      { bootMode := BootMode.insecure } { serialNum := "123B" }
      { code := Code.notFound, msg := "control card not found" }
      rfl (by decide) (by decide) (by decide)).1 (by decide) (by decide),
   (C2_partial_failure_isolation emFetchBErr 7 Service.new reqAB cardA cardB
      { bootMode := BootMode.insecure } { serialNum := "123A" }
      { code := Code.notFound, msg := "control card not found" }
      rfl (by decide) (by decide) (by decide)).2 (by decide) (by decide)⟩

/-- Counterexample to C6 as stated: the request `reqEmptyN1` carries the
non-empty nonce `N1`, yet no signing call happens (the call is rejected for
having no control cards), refuting "with a nonce ... Sign is called". -/
theorem C6_counterexample :
    (reqEmptyN1.nonce == "") = false
    ∧ ((Service.getBootstrapData emDemo 0 Service.new reqEmptyN1).trace.any isSignCall)
        = false := by
  refine ⟨rfl, rfl⟩

/-- C6 (amended): signing happens only for nonce-carrying requests, and on
every successful nonce-carrying run.  With no nonce, `Sign` is never called
and a successful call's envelope has an empty signature.  Every `Sign` call
is keyed on the serial reported in the request's control-card state and
receives the envelope into which the request's nonce was copied, and a
failing `Sign` call makes the whole RPC fail `Internal`. -/
theorem C6_signing_iff_nonce (em : EntityManager) (now : Nat) (s : ServiceState)
    (req : GetBootstrapDataRequest) :
    (req.nonce = "" →
      ((Service.getBootstrapData em now s req).trace.any isSignCall) = false
      ∧ ∀ resp, (Service.getBootstrapData em now s req).result = Except.ok resp →
          resp.responseSignature = "")
    ∧ (∀ r l ser, EMCall.sign r l ser ∈ (Service.getBootstrapData em now s req).trace →
        req.nonce ≠ "" ∧ ser = ccStateSerial req ∧ l = lookupOf req
        ∧ (∃ sr, r.signedResponse = some sr ∧ sr.nonce = req.nonce)
        ∧ ∀ e2, em.sign r l ser = Except.error e2 →
            (Service.getBootstrapData em now s req).result =
              Except.error (RpcErr.status Code.internal "failed to sign bootz response"))
    ∧ (req.nonce ≠ "" →
        ∀ resp, (Service.getBootstrapData em now s req).result = Except.ok resp →
          ((Service.getBootstrapData em now s req).trace.any isSignCall) = true) := by
  by_cases hlen : req.chassisDescriptor.controlCards.length = 0
  · have ht : (Service.getBootstrapData em now s req).trace = [] := by
      simp [Service.getBootstrapData, hlen]
    have hr : ∀ resp, (Service.getBootstrapData em now s req).result ≠ Except.ok resp := by
      intro resp
      simp [Service.getBootstrapData, hlen]
    refine ⟨?_, ?_, ?_⟩
    · intro _
      exact ⟨by rw [ht]; rfl, fun resp h => absurd h (hr resp)⟩
    · intro r l ser hmem
      rw [ht] at hmem
      simp at hmem
    · intro _ resp h
      exact absurd h (hr resp)
  · cases hres : em.resolveChassis (lookupOf req) (ccSerialOf req) with
    | error e =>
        have ht : (Service.getBootstrapData em now s req).trace =
            [EMCall.resolveChassis (lookupOf req) (ccSerialOf req)] := by
          simp [Service.getBootstrapData, hlen, hres]
        have hr : ∀ resp, (Service.getBootstrapData em now s req).result ≠ Except.ok resp := by
          intro resp
          simp [Service.getBootstrapData, hlen, hres]
        refine ⟨?_, ?_, ?_⟩
        · intro _
          exact ⟨by rw [ht]; rfl, fun resp h => absurd h (hr resp)⟩
        · intro r l ser hmem
          rw [ht] at hmem
          simp at hmem
        · intro _ resp h
          exact absurd h (hr resp)
    | ok chassis =>
        by_cases hsec : chassis.bootMode = BootMode.secure ∧ req.nonce = ""
        · have ht : (Service.getBootstrapData em now s req).trace =
              [EMCall.resolveChassis (lookupOf req) (ccSerialOf req)] := by
            simp [Service.getBootstrapData, hlen, hres, hsec]
          have hr : ∀ resp, (Service.getBootstrapData em now s req).result ≠ Except.ok resp := by
            intro resp
            simp [Service.getBootstrapData, hlen, hres, hsec]
          refine ⟨?_, ?_, ?_⟩
          · intro _
            exact ⟨by rw [ht]; rfl, fun resp h => absurd h (hr resp)⟩
          · intro r l ser hmem
            rw [ht] at hmem
            simp at hmem
          · intro _ resp h
            exact absurd h (hr resp)
        · have hrun := gbd_main_run em now s req chassis hlen hres hsec
          refine ⟨?_, ?_, ?_⟩
          · intro hn
            constructor
            · rw [hrun, gbdFinish_trace_no_nonce em req (lookupOf req) (ccSerialOf req) _ hn,
                List.any_cons]
              have hc := foldl_cardLoopStep_calls_any em now chassis (lookupOf req) req
                req.chassisDescriptor.controlCards
                { state := { s with
                    connectedChassis := lookupInsert s.connectedChassis (lookupOf req) }
                  errs := [], responses := [], calls := [] }
                isSignCall rfl (fun v => rfl)
              rw [hc]
              rfl
            · intro resp h
              rw [hrun] at h
              exact gbdFinish_ok_no_nonce_sig em req (lookupOf req) (ccSerialOf req) _ hn resp h
          · intro r l ser hmem
            rw [hrun] at hmem
            rcases gbdFinish_trace_mem em req (lookupOf req) (ccSerialOf req) _ _ hmem with
              h1 | h1 | ⟨hn, herr, hc⟩
            · simp at h1
            · rcases foldl_cardLoopStep_calls_mem em now chassis (lookupOf req) req
                req.chassisDescriptor.controlCards _ _ h1 with h2 | ⟨v, h2⟩
              · simp at h2
              · simp at h2
            · injection hc with hcr hcl hcser
              subst hcr
              subst hcl
              subst hcser
              refine ⟨hn, rfl, rfl, ⟨_, rfl, rfl⟩, ?_⟩
              intro e2 hs2
              rw [hrun]
              exact gbdFinish_sign_error em req (lookupOf req) (ccSerialOf req) _ hn herr e2 hs2
          · intro hn resp h
            rw [hrun] at h ⊢
            exact gbdFinish_ok_nonce_signed em req (lookupOf req) (ccSerialOf req) _ hn resp h

/-- Witness for C6 (amended): no nonce — no signing and empty signature on
the concrete run; nonce `N1` — signing occurred on the concrete run. -/
theorem C6_signing_iff_nonce_witness :
    ((Service.getBootstrapData emDemo 7 Service.new reqAB).trace.any isSignCall) = false
    ∧ respAB.responseSignature = ""
    ∧ ((Service.getBootstrapData emDemo 7 Service.new reqABN1).trace.any isSignCall) = true := by
  obtain ⟨h1, h2⟩ := (C6_signing_iff_nonce emDemo 7 Service.new reqAB).1 rfl
  refine ⟨h1, h2 respAB (by decide), ?_⟩
  exact (C6_signing_iff_nonce emDemo 7 Service.new reqABN1).2.2 (by decide) respABN1 (by decide)

end Bootz
